import Mathlib

/-!
# WinProcessInfo

A shallow embedding of `src/WinProcessInfo.hpp` (namespace `siddiqsoft`).

* `std::string` is `String`; `unsigned long`, `size_t` and `DWORD` values are `Nat`
  (the only arithmetic on them is `/ 1024`, which cannot overflow);
  `HANDLE` is the pointer value as a `Nat`, `NULL` being `0`.
* `std::chrono::system_clock::time_point` and `duration` are 64-bit signed tick counts,
  held in `Int`; the subtraction in `uptime()` and the multiplication in `duration_cast`
  are reduced to the 64-bit range by `wrap64`. The tick period and the text of a time
  point belong to `<chrono>` and `<format>` and are parameters (`Chrono`).
* `std::string::resize` throws above `max_size()` or when storage cannot be obtained, so
  the constructor is a function into `Except`.
* Every Win32 call is answered by an explicit record of operating-system responses,
  so that the C++ member functions become pure functions of the instance and of
  those responses.
-/

namespace siddiqsoft

/-! ## Win32 data -/

/-- A `HANDLE` is modelled by its pointer value. -/
abbrev HANDLE := Nat

/-- The null handle. -/
def NULL : HANDLE := 0

/-- The Windows SDK constant `MAX_COMPUTERNAME_LENGTH` (`WinBase.h`). -/
def MAX_COMPUTERNAME_LENGTH : Nat := 15

/-- The four selectors of `COMPUTER_NAME_FORMAT` the constructor uses. -/
inductive COMPUTER_NAME_FORMAT
  | ComputerNameDnsHostname
  | ComputerNameDnsFullyQualified
  | ComputerNamePhysicalDnsFullyQualified
  | ComputerNameDnsDomain
  deriving DecidableEq, Repr

/-- The three members of `PROCESS_MEMORY_COUNTERS_EX` that `getMemoryInfo` reads.
The defaults are the value-initialisation `pmcInfo {}`. -/
structure PROCESS_MEMORY_COUNTERS_EX where
  PeakWorkingSetSize : Nat := 0
  WorkingSetSize : Nat := 0
  PrivateUsage : Nat := 0
  deriving DecidableEq, Repr

/-- The two members of `PROCESSENTRY32` that `getCurrentThreadCount` reads.
The defaults are the initialisation `entry = {0}`. -/
structure PROCESSENTRY32 where
  th32ProcessID : Nat := 0
  cntThreads : Nat := 0
  deriving DecidableEq, Repr

/-! ## The class -/

/-- The data members of `class WinProcessInfo`, with their default member initialisers
(`timeStartup` is initialised from the clock, so it has no constant default). -/
structure WinProcessInfo where
  cpuCores : Nat := 0
  cpuHandles : Nat := 0
  cpuThreads : Nat := 0
  memPeakWorkingSet : Nat := 0
  memWorkingSet : Nat := 0
  memPrivate : Nat := 0
  nameHostname : String := ""
  nameDomainName : String := ""
  nameHostnamePhysical : String := ""
  nameFqdn : String := ""
  timeStartup : Int
  processId : Nat := 0
  processHandle : HANDLE := NULL
  deriving DecidableEq, Repr

/-! ## Sampling -/

/-- What the operating system answers during one call of `snapshot()`.
`none` is a failed call that writes nothing to its output argument; for
`CreateToolhelp32Snapshot`, `none` is a failed enumeration and `some es` the finite
sequence of process entries that `Process32First`/`Process32Next` walk through. -/
structure SampleOs where
  GetProcessMemoryInfo : HANDLE → Option PROCESS_MEMORY_COUNTERS_EX
  GetProcessHandleCount : HANDLE → Option Nat
  CreateToolhelp32Snapshot : Option (List PROCESSENTRY32)

/-- The body of `getMemoryInfo()`. -/
def getMemoryInfo (w : WinProcessInfo) (os : SampleOs) : WinProcessInfo :=
  let pmcInfo0 : PROCESS_MEMORY_COUNTERS_EX := {}
  let pmcInfo :=
    match os.GetProcessMemoryInfo w.processHandle with
    | some written => written
    | none => pmcInfo0
  let w1 := { w with
    memPeakWorkingSet := pmcInfo.PeakWorkingSetSize / 1024
    memWorkingSet := pmcInfo.WorkingSetSize / 1024
    memPrivate := pmcInfo.PrivateUsage / 1024 }
  let w2 := { w1 with cpuHandles := 0 }
  match os.GetProcessHandleCount w2.processHandle with
  | some count => { w2 with cpuHandles := count }
  | none => w2

/-- The call `Process32First(snapshot, &entry)`: the return value, the entry after the call,
and the entries still to be enumerated. -/
def Process32First (snapshot : Option (List PROCESSENTRY32)) (entry : PROCESSENTRY32) :
    Bool × PROCESSENTRY32 × List PROCESSENTRY32 :=
  match snapshot with
  | some (e :: rest) => (true, e, rest)
  | _ => (false, entry, [])

/-- The loop `while (ret && entry.th32ProcessID != processId) ret = Process32Next(snapshot, &entry);`
started with the given `ret` and `entry`, `cursor` being the entries still to be enumerated.
`Process32Next` on an exhausted enumeration returns `FALSE` and leaves `entry` alone, which
ends the loop. The result is the final `ret` and `entry`. -/
def scanLoop (processId : Nat) (ret : Bool) (entry : PROCESSENTRY32) :
    List PROCESSENTRY32 → Bool × PROCESSENTRY32
  | [] => if ret && entry.th32ProcessID != processId then (false, entry) else (ret, entry)
  | e :: rest =>
    if ret && entry.th32ProcessID != processId then scanLoop processId true e rest
    else (ret, entry)

/-- The body of `getCurrentThreadCount()`. -/
def getCurrentThreadCount (w : WinProcessInfo) (os : SampleOs) : WinProcessInfo :=
  let snapshot := os.CreateToolhelp32Snapshot
  let entry0 : PROCESSENTRY32 := {}
  let first := Process32First snapshot entry0
  let final := scanLoop w.processId first.1 first.2.1 first.2.2
  { w with cpuThreads := if final.1 then final.2.cntThreads else 0 }

/-- The body of `snapshot()`. -/
def snapshot (w : WinProcessInfo) (os : SampleOs) : WinProcessInfo :=
  getCurrentThreadCount (getMemoryInfo w os) os

/-! ## Construction -/

/-- The exceptions that `std::string::resize` throws. -/
inductive Exception
  | length_error
  | bad_alloc
  deriving DecidableEq, Repr

/-- The contents of a string after a `resize(n)` that returns: truncation to `n` characters,
or padding with value-initialised (NUL) characters up to `n`. -/
def resized (s : String) (n : Nat) : String :=
  ⟨s.data.take n ++ List.replicate (n - s.data.length) '\x00'⟩

/-- What one call `GetComputerNameExA(format, buffer, &size)` does: its return value, the
characters it stores at the start of the buffer (a terminator it writes included), and the
value it leaves in `size`. -/
structure NameAnswer where
  ok : Bool
  written : List Char
  nSize : Nat
  deriving DecidableEq, Repr

/-- The buffer `s.data()` after the operating system has stored `written` at its start;
characters of the buffer that were not overwritten keep their value. -/
def storeAt (buf : String) (written : List Char) : String :=
  ⟨(written ++ buf.data.drop written.length).take buf.data.length⟩

/-- What the environment answers during construction. `GetComputerNameExA format n` is the
answer to a call with that selector and a buffer of `n` characters; `now` is the reading of
`std::chrono::system_clock::now()` taken by the initialiser of `timeStartup`; `max_size` is
`std::string::max_size()` and `allocatable` the largest length for which the allocator
provides storage. -/
structure ConstructOs where
  GetCurrentProcessId : Nat
  dwNumberOfProcessors : Nat
  GetCurrentProcess : HANDLE
  GetComputerNameExA : COMPUTER_NAME_FORMAT → Nat → NameAnswer
  now : Int
  max_size : Nat
  allocatable : Nat

/-- The call `s.resize(n)`: it throws `std::length_error` when `n` exceeds `max_size()`, and
`std::bad_alloc` when the string has to grow and storage for `n` characters cannot be
obtained; otherwise it returns and leaves `resized s n`. -/
def resize (os : ConstructOs) (s : String) (n : Nat) : Except Exception String :=
  if os.max_size < n then Except.error Exception.length_error
  else if s.data.length < n ∧ os.allocatable < n then Except.error Exception.bad_alloc
  else Except.ok (resized s n)

/-- The four statements the constructor runs for one name form, on the member `field`:
`dwSize = MAX_COMPUTERNAME_LENGTH; field.resize(MAX_COMPUTERNAME_LENGTH);`
`GetComputerNameExA(format, field.data(), &dwSize); field.resize(dwSize);`.
The return value of the call is not looked at, the call is made once, and an exception of
either `resize` ends the run. -/
def resolveName (os : ConstructOs) (format : COMPUTER_NAME_FORMAT) (field : String) :
    Except Exception String := do
  let dwSize0 := MAX_COMPUTERNAME_LENGTH
  let buf0 ← resize os field MAX_COMPUTERNAME_LENGTH
  let answer := os.GetComputerNameExA format dwSize0
  let buf1 := storeAt buf0 answer.written
  let dwSize1 := answer.nSize
  resize os buf1 dwSize1

/-- The constructor `WinProcessInfo()`, run on the default-initialised members. It has no
`throw` of its own; it ends with the instance unless one of the `resize` calls throws, in
which case the exception leaves the constructor and no instance exists. -/
def construct (os : ConstructOs) : Except Exception WinProcessInfo := do
  let w0 : WinProcessInfo := { timeStartup := os.now }
  let w1 := { w0 with processId := os.GetCurrentProcessId }
  let w2 := { w1 with cpuCores := os.dwNumberOfProcessors }
  let w3 := { w2 with processHandle := os.GetCurrentProcess }
  let hostname ← resolveName os COMPUTER_NAME_FORMAT.ComputerNameDnsHostname w3.nameHostname
  let w4 := { w3 with nameHostname := hostname }
  let fqdn ← resolveName os COMPUTER_NAME_FORMAT.ComputerNameDnsFullyQualified w4.nameFqdn
  let w5 := { w4 with nameFqdn := fqdn }
  let physical ← resolveName os COMPUTER_NAME_FORMAT.ComputerNamePhysicalDnsFullyQualified
    w5.nameHostnamePhysical
  let w6 := { w5 with nameHostnamePhysical := physical }
  let domain ← resolveName os COMPUTER_NAME_FORMAT.ComputerNameDnsDomain w6.nameDomainName
  return { w6 with nameDomainName := domain }

/-- The member that holds the name of the given form. -/
def nameField (w : WinProcessInfo) : COMPUTER_NAME_FORMAT → String
  | COMPUTER_NAME_FORMAT.ComputerNameDnsHostname => w.nameHostname
  | COMPUTER_NAME_FORMAT.ComputerNameDnsFullyQualified => w.nameFqdn
  | COMPUTER_NAME_FORMAT.ComputerNamePhysicalDnsFullyQualified => w.nameHostnamePhysical
  | COMPUTER_NAME_FORMAT.ComputerNameDnsDomain => w.nameDomainName

/-- The documented contract of `GetComputerNameExA` for a host whose name of the requested
form is `name` (`none`: the name cannot be resolved), called with a buffer of `nSize`
characters. A name that fits together with its terminator is stored and its length, the
terminator not counted, is reported. For a name that does not fit the call fails and reports
the required size, terminator included. Any other failure stores and reports nothing. -/
def win32NameAnswer (name : Option String) (nSize : Nat) : NameAnswer :=
  match name with
  | some n =>
    if n.data.length < nSize then
      { ok := true, written := n.data ++ ['\x00'], nSize := n.data.length }
    else
      { ok := false, written := [], nSize := n.data.length + 1 }
  | none => { ok := false, written := [], nSize := nSize }

/-- The handle test of the destructor, `processHandle != NULL`. -/
def validHandle (h : HANDLE) : Bool := h != NULL

/-! ## Uptime and serialisation -/

/-- The values of the 64-bit signed representation of `system_clock::duration`. -/
abbrev fitsInt64 (x : Int) : Prop := -9223372036854775808 ≤ x ∧ x < 9223372036854775808

/-- The 64-bit signed result of an arithmetic operation whose exact result is `x`: the
two's-complement value the compiled code leaves when the exact result is out of range. -/
def wrap64 (x : Int) : Int :=
  (x + 9223372036854775808) % 18446744073709551616 - 9223372036854775808

/-- The body of `uptime()`, `now` being the reading of `system_clock::now()`; the
subtraction is one of 64-bit signed tick counts. -/
def WinProcessInfo.uptime (wpi : WinProcessInfo) (now : Int) : Int :=
  wrap64 (now - wpi.timeStartup)

/-- What the build and `<chrono>` fix: whether `__cpp_lib_format` is defined, the text
`std::format("{:%FT%T}", t)` of a time point, and the factor `cfNum / cfDen` by which
`duration_cast<microseconds>` scales a `system_clock::duration` tick count. -/
structure Chrono where
  cpp_lib_format : Bool
  formatTime : Int → String
  cfNum : Nat
  cfDen : Nat

/-- The value of `duration_cast<std::chrono::microseconds>(d).count()`: the tick count times
the numerator of the conversion factor, a 64-bit signed product, divided by its denominator
with rounding towards zero. -/
def Chrono.microseconds (c : Chrono) (d : Int) : Int :=
  Int.tdiv (wrap64 (d * c.cfNum)) c.cfDen

/-- The JSON values that `to_json` stores. -/
inductive Json
  | number_unsigned (n : Nat)
  | number_integer (i : Int)
  | string (s : String)
  deriving DecidableEq, Repr

/-- A JSON object, as the members in the order of the initialiser list. -/
abbrev JsonObject := List (String × Json)

/-- The key set of an object. -/
def JsonObject.keys (o : JsonObject) : List String := o.map Prod.fst

/-- The value stored under a key, if any. -/
def JsonObject.value (o : JsonObject) (key : String) : Option Json := o.lookup key

/-- The body of `to_json`. The initialiser list is evaluated from left to right, so the clock
is read first for `timeCurrent` (`nowCurrent`) and then inside `uptime()` (`nowUptime`). -/
def to_json (c : Chrono) (wpi : WinProcessInfo) (nowCurrent nowUptime : Int) : JsonObject :=
  [("processId", Json.number_unsigned wpi.processId),
   ("hostname", Json.string wpi.nameHostname),
   ("fqdn", Json.string wpi.nameFqdn),
   ("domain", Json.string wpi.nameDomainName),
   ("localFqdn", Json.string wpi.nameHostnamePhysical),
   ("cpuHandles", Json.number_unsigned wpi.cpuHandles),
   ("cpuThreads", Json.number_unsigned wpi.cpuThreads),
   ("cpuCores", Json.number_unsigned wpi.cpuCores),
   ("memPeakWorkingSet", Json.number_unsigned wpi.memPeakWorkingSet),
   ("memWorkingSet", Json.number_unsigned wpi.memWorkingSet),
   ("memPrivateBytes", Json.number_unsigned wpi.memPrivate)]
  ++ (if c.cpp_lib_format then
        [("timeStartup", Json.string (c.formatTime wpi.timeStartup ++ "Z")),
         ("timeCurrent", Json.string (c.formatTime nowCurrent ++ "Z"))]
      else [])
  ++ [("uptime", Json.number_integer (c.microseconds (wpi.uptime nowUptime)))]

/-- The fourteen keys of the serialised record. -/
def allKeys : List String :=
  ["processId", "hostname", "fqdn", "domain", "localFqdn", "cpuHandles", "cpuThreads",
   "cpuCores", "memPeakWorkingSet", "memWorkingSet", "memPrivateBytes", "timeStartup",
   "timeCurrent", "uptime"]

/-- The text that `std::formatter<WinProcessInfo>::format` builds in its branch without
`INCLUDE_NLOHMANN_JSON_HPP_`: the fourteen `std::format_to` calls, appended in order. -/
def format (c : Chrono) (wpi : WinProcessInfo) (nowCurrent nowUptime : Int) : String :=
  let s0 := ""
  let s1 := s0 ++ ("\x7b\"processId\":" ++ toString wpi.processId)
  let s2 := s1 ++ (",\"hostname\":\"" ++ wpi.nameHostname ++ "\",")
  let s3 := s2 ++ (",\"domain\":\"" ++ wpi.nameDomainName ++ "\",")
  let s4 := s3 ++ (",\"fqdn\":\"" ++ wpi.nameFqdn ++ "\",")
  let s5 := s4 ++ (",\"localFqdn\":\"" ++ wpi.nameHostnamePhysical ++ "\",")
  let s6 := s5 ++ (",\"cpuHandles\":" ++ toString wpi.cpuHandles ++ ",")
  let s7 := s6 ++ (",\"cpuThreads\":" ++ toString wpi.cpuThreads ++ ",")
  let s8 := s7 ++ (",\"cpuCores\":" ++ toString wpi.cpuCores ++ ",")
  let s9 := s8 ++ (",\"memPeakWorkingSet\":" ++ toString wpi.memPeakWorkingSet ++ ",")
  let s10 := s9 ++ (",\"memWorkingSet\":" ++ toString wpi.memWorkingSet ++ ",")
  let s11 := s10 ++ (",\"memPrivateBytes\":" ++ toString wpi.memPrivate ++ ",")
  let s12 := s11 ++ (",\"timeStartup\":\"" ++ c.formatTime wpi.timeStartup ++ "Z\"")
  let s13 := s12 ++ (",\"timeCurrent\":\"" ++ c.formatTime nowCurrent ++ "Z\"")
  s13 ++ (",\"uptime\":" ++ toString (c.microseconds (wpi.uptime nowUptime)) ++ "\x7d")

/-- A call of the `const` member function `uptime()`: the instance after the call, which a
`const` member function cannot modify, and the duration returned. -/
def callUptime (wpi : WinProcessInfo) (now : Int) : WinProcessInfo × Int :=
  (wpi, wpi.uptime now)

/-- A call of `to_json(dest, wpi)`, whose parameter is `const WinProcessInfo&`: the instance
after the call and the record stored in `dest`. -/
def callToJson (c : Chrono) (wpi : WinProcessInfo) (nowCurrent nowUptime : Int) :
    WinProcessInfo × JsonObject :=
  (wpi, to_json c wpi nowCurrent nowUptime)

/-- The text `"key":value` of one member of a JSON object. -/
def member (key value : String) : String := "\"" ++ key ++ "\":" ++ value

/-- The text of a JSON string without characters to escape. -/
def quoted (s : String) : String := "\"" ++ s ++ "\""

/-! ## Concrete environments -/

/-- A host with short names and process id 4242. -/
def hostOs : ConstructOs where
  GetCurrentProcessId := 4242
  dwNumberOfProcessors := 8
  GetCurrentProcess := 18446744073709551615
  GetComputerNameExA := fun format n =>
    match format with
    | COMPUTER_NAME_FORMAT.ComputerNameDnsHostname => win32NameAnswer (some "web01") n
    | COMPUTER_NAME_FORMAT.ComputerNameDnsFullyQualified => win32NameAnswer (some "web01.corp") n
    | COMPUTER_NAME_FORMAT.ComputerNamePhysicalDnsFullyQualified =>
      win32NameAnswer (some "node7.corp") n
    | COMPUTER_NAME_FORMAT.ComputerNameDnsDomain => win32NameAnswer (some "corp") n
  now := 1000
  max_size := 9223372036854775807
  allocatable := 1073741824

/-- The instance that construction on `hostOs` ends with. -/
def hostInstance : WinProcessInfo where
  cpuCores := 8
  nameHostname := "web01"
  nameDomainName := "corp"
  nameHostnamePhysical := "node7.corp"
  nameFqdn := "web01.corp"
  timeStartup := 1000
  processId := 4242
  processHandle := 18446744073709551615

/-- A sampling in which every query succeeds. -/
def sampleOk : SampleOs where
  GetProcessMemoryInfo := fun _ =>
    some { PeakWorkingSetSize := 5000000, WorkingSetSize := 4096000, PrivateUsage := 2047 }
  GetProcessHandleCount := fun _ => some 117
  CreateToolhelp32Snapshot :=
    some [{ th32ProcessID := 4, cntThreads := 200 }, { th32ProcessID := 4242, cntThreads := 7 },
          { th32ProcessID := 4242, cntThreads := 9 }, { th32ProcessID := 5000, cntThreads := 1 }]

/-- A sampling in which the memory query and the handle-count query fail, while the process
enumeration succeeds. -/
def sampleQueriesFail : SampleOs where
  GetProcessMemoryInfo := fun _ => none
  GetProcessHandleCount := fun _ => none
  CreateToolhelp32Snapshot := some [{ th32ProcessID := 4242, cntThreads := 7 }]

/-- A host whose short DNS name has 24 characters and does not fit the first buffer, and
whose domain name cannot be resolved; `GetCurrentProcess` yields no handle. -/
def longNameOs : ConstructOs where
  GetCurrentProcessId := 4242
  dwNumberOfProcessors := 8
  GetCurrentProcess := NULL
  GetComputerNameExA := fun format n =>
    match format with
    | COMPUTER_NAME_FORMAT.ComputerNameDnsHostname =>
      win32NameAnswer (some "build-agent-windows-2022") n
    | COMPUTER_NAME_FORMAT.ComputerNameDnsFullyQualified => win32NameAnswer (some "") n
    | COMPUTER_NAME_FORMAT.ComputerNamePhysicalDnsFullyQualified =>
      win32NameAnswer (some "node7.corp") n
    | COMPUTER_NAME_FORMAT.ComputerNameDnsDomain => win32NameAnswer none n
  now := 1000
  max_size := 9223372036854775807
  allocatable := 1073741824

/-- The instance that construction on `longNameOs` ends with. -/
def longNameInstance : WinProcessInfo where
  cpuCores := 8
  nameHostname := String.mk (List.replicate 25 '\x00')
  nameDomainName := String.mk (List.replicate 15 '\x00')
  nameHostnamePhysical := "node7.corp"
  nameFqdn := ""
  timeStartup := 1000
  processId := 4242
  processHandle := NULL

/-- A 32-bit process (`max_size()` is `2^31 - 1`) with a valid process handle, in which the
call for the short DNS name fails and leaves `4294967295` in `size`. -/
def hugeSizeOs : ConstructOs where
  GetCurrentProcessId := 4242
  dwNumberOfProcessors := 8
  GetCurrentProcess := 4294967295
  GetComputerNameExA := fun format n =>
    match format with
    | COMPUTER_NAME_FORMAT.ComputerNameDnsHostname =>
      { ok := false, written := [], nSize := 4294967295 }
    | COMPUTER_NAME_FORMAT.ComputerNameDnsFullyQualified => win32NameAnswer (some "web01.corp") n
    | COMPUTER_NAME_FORMAT.ComputerNamePhysicalDnsFullyQualified =>
      win32NameAnswer (some "node7.corp") n
    | COMPUTER_NAME_FORMAT.ComputerNameDnsDomain => win32NameAnswer (some "corp") n
  now := 1000
  max_size := 2147483647
  allocatable := 1073741824

/-- An instance state whose `timeStartup` is the smallest 64-bit tick count. -/
def earliestStart : WinProcessInfo where
  nameHostname := "web01"
  timeStartup := -9223372036854775808
  processId := 4242
  processHandle := 18446744073709551615

/-- A build without `std::format` (`__cpp_lib_format` not defined), with 100 ns clock ticks.
The text of a time point is never asked for in such a build. -/
def buildWithoutFormat : Chrono where
  cpp_lib_format := false
  formatTime := fun _ => ""
  cfNum := 1
  cfDen := 10

/-- A build with `std::format` and 100 ns clock ticks. The text of a time point is given for
the readings of the first second after the epoch, `1970-01-01T00:00:00.` followed by the
seven digits of the tick count. -/
def buildWithFormat : Chrono where
  cpp_lib_format := true
  formatTime := fun t =>
    "1970-01-01T00:00:00." ++ String.mk (List.replicate (7 - (toString t).length) '0')
      ++ toString t
  cfNum := 1
  cfDen := 10

/-! ## Auxiliary facts -/

theorem getMemoryInfo_frame (w : WinProcessInfo) (os : SampleOs) :
    (getMemoryInfo w os).processId = w.processId ∧
    (getMemoryInfo w os).processHandle = w.processHandle ∧
    (getMemoryInfo w os).cpuCores = w.cpuCores ∧
    (getMemoryInfo w os).nameHostname = w.nameHostname ∧
    (getMemoryInfo w os).nameFqdn = w.nameFqdn ∧
    (getMemoryInfo w os).nameHostnamePhysical = w.nameHostnamePhysical ∧
    (getMemoryInfo w os).nameDomainName = w.nameDomainName ∧
    (getMemoryInfo w os).timeStartup = w.timeStartup := by
  unfold getMemoryInfo
  cases h1 : os.GetProcessMemoryInfo w.processHandle <;>
    cases h2 : os.GetProcessHandleCount w.processHandle <;> simp [h2]

theorem snapshot_frame (w : WinProcessInfo) (os : SampleOs) :
    (snapshot w os).processId = w.processId ∧
    (snapshot w os).processHandle = w.processHandle ∧
    (snapshot w os).cpuCores = w.cpuCores ∧
    (snapshot w os).nameHostname = w.nameHostname ∧
    (snapshot w os).nameFqdn = w.nameFqdn ∧
    (snapshot w os).nameHostnamePhysical = w.nameHostnamePhysical ∧
    (snapshot w os).nameDomainName = w.nameDomainName ∧
    (snapshot w os).timeStartup = w.timeStartup := by
  simpa [snapshot, getCurrentThreadCount] using getMemoryInfo_frame w os

theorem foldl_snapshot_processId (samples : List SampleOs) (w : WinProcessInfo) :
    (samples.foldl snapshot w).processId = w.processId := by
  induction samples generalizing w with
  | nil => rfl
  | cons os rest ih =>
    rw [List.foldl_cons, ih, (snapshot_frame w os).1]

/-- The scan, started on an entry that was fetched, ends on the first entry of
`entry :: cursor` with the wanted process id, and with `ret = false` if there is none. -/
theorem scanLoop_true (processId : Nat) (cursor : List PROCESSENTRY32) (entry : PROCESSENTRY32) :
    (if (scanLoop processId true entry cursor).1
      then (scanLoop processId true entry cursor).2.cntThreads else 0)
      = match (entry :: cursor).find? (fun e => e.th32ProcessID == processId) with
        | some e => e.cntThreads
        | none => 0 := by
  induction cursor generalizing entry with
  | nil =>
    by_cases h : entry.th32ProcessID = processId
    · simp [scanLoop, List.find?_cons, h]
    · have hb : (entry.th32ProcessID == processId) = false := by simpa using h
      simp [scanLoop, List.find?_cons, hb, h]
  | cons e rest ih =>
    by_cases h : entry.th32ProcessID = processId
    · simp [scanLoop, List.find?_cons, h]
    · have hb : (entry.th32ProcessID == processId) = false := by simpa using h
      have hstep : scanLoop processId true entry (e :: rest) = scanLoop processId true e rest := by
        simp [scanLoop, h]
      rw [hstep, ih e, List.find?_cons (a := entry), hb]

theorem cpuThreads_eq_find (w : WinProcessInfo) (os : SampleOs) :
    (snapshot w os).cpuThreads
      = match (os.CreateToolhelp32Snapshot.getD []).find?
          (fun e => e.th32ProcessID == w.processId) with
        | some e => e.cntThreads
        | none => 0 := by
  have hp : (getMemoryInfo w os).processId = w.processId := (getMemoryInfo_frame w os).1
  simp only [snapshot, getCurrentThreadCount, hp]
  cases hs : os.CreateToolhelp32Snapshot with
  | none => simp [Process32First, scanLoop]
  | some es =>
    cases es with
    | nil => simp [Process32First, scanLoop]
    | cons e rest =>
      simpa [Process32First] using scanLoop_true w.processId rest e

theorem resize_accepts (os : ConstructOs) (s : String) (n : Nat)
    (h1 : n ≤ os.max_size) (h2 : n ≤ os.allocatable) :
    resize os s n = Except.ok (resized s n) := by
  unfold resize
  rw [if_neg (by omega), if_neg (by omega)]

theorem resolveName_accepts (os : ConstructOs) (format : COMPUTER_NAME_FORMAT)
    (h0 : MAX_COMPUTERNAME_LENGTH ≤ os.max_size ∧ MAX_COMPUTERNAME_LENGTH ≤ os.allocatable)
    (h1 : (os.GetComputerNameExA format MAX_COMPUTERNAME_LENGTH).nSize ≤ os.max_size ∧
      (os.GetComputerNameExA format MAX_COMPUTERNAME_LENGTH).nSize ≤ os.allocatable) :
    ∃ t, resolveName os format "" = Except.ok t := by
  unfold resolveName
  rw [resize_accepts os _ _ h0.1 h0.2]
  simp only [bind, Except.bind]
  rw [resize_accepts os _ _ h1.1 h1.2]
  exact ⟨_, rfl⟩

/-- What a construction that ends with an instance leaves in it. -/
theorem construct_ok (os : ConstructOs) (w : WinProcessInfo) (h : construct os = Except.ok w) :
    (w.processId = os.GetCurrentProcessId ∧ w.cpuCores = os.dwNumberOfProcessors ∧
      w.processHandle = os.GetCurrentProcess ∧ w.timeStartup = os.now) ∧
    (w.cpuHandles = 0 ∧ w.cpuThreads = 0 ∧ w.memPeakWorkingSet = 0 ∧ w.memWorkingSet = 0 ∧
      w.memPrivate = 0) ∧
    ∀ format, resolveName os format "" = Except.ok (nameField w format) := by
  unfold construct at h
  cases h1 : resolveName os COMPUTER_NAME_FORMAT.ComputerNameDnsHostname "" with
  | error e => simp [h1, bind, Except.bind] at h
  | ok n1 =>
    cases h2 : resolveName os COMPUTER_NAME_FORMAT.ComputerNameDnsFullyQualified "" with
    | error e => simp [h1, h2, bind, Except.bind] at h
    | ok n2 =>
      cases h3 : resolveName os COMPUTER_NAME_FORMAT.ComputerNamePhysicalDnsFullyQualified ""
        with
      | error e => simp [h1, h2, h3, bind, Except.bind] at h
      | ok n3 =>
        cases h4 : resolveName os COMPUTER_NAME_FORMAT.ComputerNameDnsDomain "" with
        | error e => simp [h1, h2, h3, h4, bind, Except.bind] at h
        | ok n4 =>
          simp only [h1, h2, h3, h4, bind, Except.bind, pure, Except.pure] at h
          cases h
          refine ⟨⟨rfl, rfl, rfl, rfl⟩, ⟨rfl, rfl, rfl, rfl, rfl⟩, ?_⟩
          intro format
          cases format
          · exact h1
          · exact h2
          · exact h3
          · exact h4

/-- Construction ends with an instance when `resize` accepts the first buffer length and
the four reported lengths. -/
theorem construct_accepts (os : ConstructOs)
    (h0 : MAX_COMPUTERNAME_LENGTH ≤ os.max_size ∧ MAX_COMPUTERNAME_LENGTH ≤ os.allocatable)
    (h1 : ∀ format,
      (os.GetComputerNameExA format MAX_COMPUTERNAME_LENGTH).nSize ≤ os.max_size ∧
      (os.GetComputerNameExA format MAX_COMPUTERNAME_LENGTH).nSize ≤ os.allocatable) :
    ∃ w, construct os = Except.ok w := by
  obtain ⟨n1, e1⟩ := resolveName_accepts os COMPUTER_NAME_FORMAT.ComputerNameDnsHostname h0
    (h1 _)
  obtain ⟨n2, e2⟩ := resolveName_accepts os COMPUTER_NAME_FORMAT.ComputerNameDnsFullyQualified
    h0 (h1 _)
  obtain ⟨n3, e3⟩ := resolveName_accepts os
    COMPUTER_NAME_FORMAT.ComputerNamePhysicalDnsFullyQualified h0 (h1 _)
  obtain ⟨n4, e4⟩ := resolveName_accepts os COMPUTER_NAME_FORMAT.ComputerNameDnsDomain h0 (h1 _)
  unfold construct
  simp only [e1, e2, e3, e4, bind, Except.bind, pure, Except.pure]
  exact ⟨_, rfl⟩

theorem construct_hostOs : construct hostOs = Except.ok hostInstance := rfl

theorem construct_longNameOs : construct longNameOs = Except.ok longNameInstance := rfl

/-- An exact result within the 64-bit range is the result the code computes. -/
theorem wrap64_of_fits (x : Int) (h : fitsInt64 x) : wrap64 x = x := by
  obtain ⟨h1, h2⟩ := h
  unfold wrap64
  omega

/-- Division rounding towards zero is monotone in the dividend. -/
theorem tdiv_mono (a b : Int) (c : Nat) (h : a ≤ b) : Int.tdiv a c ≤ Int.tdiv b c := by
  rcases Nat.eq_zero_or_pos c with hc | hc
  · subst hc
    simp
  have hc0 : (0 : Int) < c := by exact_mod_cast hc
  have hnn : ∀ x : Int, 0 ≤ x → Int.tdiv x c = x / c := fun x hx =>
    Int.tdiv_eq_ediv hx (le_of_lt hc0)
  have hneg : ∀ x : Int, x ≤ 0 → Int.tdiv x c = -((-x) / c) := fun x hx => by
    have := hnn (-x) (by omega)
    rw [Int.neg_tdiv] at this
    omega
  by_cases ha : 0 ≤ a
  · rw [hnn a ha, hnn b (le_trans ha h)]
    exact Int.ediv_le_ediv hc0 h
  · by_cases hb : 0 ≤ b
    · rw [hneg a (by omega), hnn b hb]
      have h1 : 0 ≤ (-a) / (c : Int) := Int.ediv_nonneg (by omega) (le_of_lt hc0)
      have h2 : 0 ≤ b / (c : Int) := Int.ediv_nonneg hb (le_of_lt hc0)
      omega
    · rw [hneg a (by omega), hneg b (by omega)]
      have := Int.ediv_le_ediv hc0 (show -b ≤ -a by omega)
      omega

/-- The microseconds of an uptime, when the tick difference and its product with the
numerator of the conversion factor are within the 64-bit range. -/
theorem microseconds_uptime (c : Chrono) (wpi : WinProcessInfo) (now : Int)
    (hd : fitsInt64 (now - wpi.timeStartup))
    (hp : fitsInt64 ((now - wpi.timeStartup) * c.cfNum)) :
    c.microseconds (wpi.uptime now)
      = Int.tdiv ((now - wpi.timeStartup) * c.cfNum) c.cfDen := by
  unfold Chrono.microseconds WinProcessInfo.uptime
  rw [wrap64_of_fits _ hd, wrap64_of_fits _ hp]

theorem value_uptime (c : Chrono) (wpi : WinProcessInfo) (nowCurrent nowUptime : Int) :
    (to_json c wpi nowCurrent nowUptime).value "uptime"
      = some (Json.number_integer (c.microseconds (wpi.uptime nowUptime))) := by
  cases hf : c.cpp_lib_format <;> simp [to_json, JsonObject.value, List.lookup, hf]

/-! ## The claims -/

/-- C1: in every operating-system environment, an instance that construction has produced,
before any `snapshot()`, has the process id the system reports as its `processId` and has
its five counters zero; at every clock reading and in every build, its `to_json` record holds
`cpuHandles`, `cpuThreads`, `memPeakWorkingSet`, `memWorkingSet` and `memPrivateBytes`, each
with the value 0. -/
theorem C1_fresh_instance (os : ConstructOs) (w : WinProcessInfo)
    (h : construct os = Except.ok w) :
    w.processId = os.GetCurrentProcessId ∧
    w.cpuHandles = 0 ∧ w.cpuThreads = 0 ∧
    w.memPeakWorkingSet = 0 ∧ w.memWorkingSet = 0 ∧ w.memPrivate = 0 ∧
    ∀ (c : Chrono) (nowCurrent nowUptime : Int),
      (to_json c w nowCurrent nowUptime).value "cpuHandles" = some (Json.number_unsigned 0) ∧
      (to_json c w nowCurrent nowUptime).value "cpuThreads" = some (Json.number_unsigned 0) ∧
      (to_json c w nowCurrent nowUptime).value "memPeakWorkingSet"
        = some (Json.number_unsigned 0) ∧
      (to_json c w nowCurrent nowUptime).value "memWorkingSet"
        = some (Json.number_unsigned 0) ∧
      (to_json c w nowCurrent nowUptime).value "memPrivateBytes"
        = some (Json.number_unsigned 0) := by
  obtain ⟨⟨hpid, _, _, _⟩, ⟨h1, h2, h3, h4, h5⟩, _⟩ := construct_ok os w h
  refine ⟨hpid, h1, h2, h3, h4, h5, ?_⟩
  intro c nowCurrent nowUptime
  simp [to_json, JsonObject.value, List.lookup, h1, h2, h3, h4, h5]

/-- C1, at the host `hostOs`, where construction ends with `hostInstance`. -/
theorem C1_fresh_instance_witness :
    construct hostOs = Except.ok hostInstance ∧
    hostInstance.processId = hostOs.GetCurrentProcessId ∧
    hostInstance.cpuHandles = 0 ∧
    (to_json buildWithFormat hostInstance 2000 2500).value "memPrivateBytes"
      = some (Json.number_unsigned 0) :=
  have h := C1_fresh_instance hostOs hostInstance rfl
  ⟨rfl, h.1, h.2.1, (h.2.2.2.2.2.2 buildWithFormat 2000 2500).2.2.2.2⟩

/-- C2: `snapshot()` leaves `processId`, `processHandle`, `cpuCores`, the four names and
`timeStartup` as they were, so the instance after the call is the instance before it with at
most the five counters replaced; and after construction followed by any number of
`snapshot()` calls `processId` is still the process id the system reported. -/
theorem C2_snapshot_keeps_identity (w : WinProcessInfo) (os : SampleOs) :
    ((snapshot w os).processId = w.processId ∧
     (snapshot w os).processHandle = w.processHandle ∧
     (snapshot w os).cpuCores = w.cpuCores ∧
     (snapshot w os).nameHostname = w.nameHostname ∧
     (snapshot w os).nameFqdn = w.nameFqdn ∧
     (snapshot w os).nameHostnamePhysical = w.nameHostnamePhysical ∧
     (snapshot w os).nameDomainName = w.nameDomainName ∧
     (snapshot w os).timeStartup = w.timeStartup) ∧
    snapshot w os = { w with
      cpuHandles := (snapshot w os).cpuHandles
      cpuThreads := (snapshot w os).cpuThreads
      memPeakWorkingSet := (snapshot w os).memPeakWorkingSet
      memWorkingSet := (snapshot w os).memWorkingSet
      memPrivate := (snapshot w os).memPrivate } ∧
    ∀ (cos : ConstructOs) (fresh : WinProcessInfo) (samples : List SampleOs),
      construct cos = Except.ok fresh →
      (samples.foldl snapshot fresh).processId = cos.GetCurrentProcessId := by
  have h := snapshot_frame w os
  refine ⟨h, ?_, ?_⟩
  · obtain ⟨h1, h2, h3, h4, h5, h6, h7, h8⟩ := h
    generalize snapshot w os = w2 at *
    cases w2
    cases w
    simp_all
  · intro cos fresh samples hc
    rw [foldl_snapshot_processId]
    exact (construct_ok cos fresh hc).1.1

/-- C2, at the instance constructed on `hostOs` and sampled twice, the second time with
failing queries. -/
theorem C2_snapshot_keeps_identity_witness :
    ([sampleOk, sampleQueriesFail].foldl snapshot hostInstance).processId
      = hostOs.GetCurrentProcessId :=
  (C2_snapshot_keeps_identity hostInstance sampleOk).2.2 hostOs hostInstance
    [sampleOk, sampleQueriesFail] rfl

/-- C3: the scan of `snapshot()` is total and sets `cpuThreads` to the thread count of the
first enumerated entry whose process id is this instance's `processId`, and to 0 when there is
none (also for an empty or a failed enumeration); what follows the first match has no
influence. -/
theorem C3_thread_count_first_match (w : WinProcessInfo) (os : SampleOs) :
    ((snapshot w os).cpuThreads
      = match (os.CreateToolhelp32Snapshot.getD []).find?
          (fun e => e.th32ProcessID == w.processId) with
        | some e => e.cntThreads
        | none => 0) ∧
    (∀ (before after : List PROCESSENTRY32) (e : PROCESSENTRY32),
      os.CreateToolhelp32Snapshot = some (before ++ e :: after) →
      (∀ x ∈ before, x.th32ProcessID ≠ w.processId) →
      e.th32ProcessID = w.processId →
      (snapshot w os).cpuThreads = e.cntThreads) ∧
    ((∀ x ∈ os.CreateToolhelp32Snapshot.getD [], x.th32ProcessID ≠ w.processId) →
      (snapshot w os).cpuThreads = 0) := by
  have key := cpuThreads_eq_find w os
  refine ⟨key, ?_, ?_⟩
  · intro before after e hs hbefore he
    have hnone : before.find? (fun e => e.th32ProcessID == w.processId) = none := by
      rw [List.find?_eq_none]
      intro x hx
      simpa using hbefore x hx
    rw [key, hs]
    simp [List.find?_append, hnone, List.find?_cons, he]
  · intro hall
    have hnone : (os.CreateToolhelp32Snapshot.getD []).find?
        (fun e => e.th32ProcessID == w.processId) = none := by
      rw [List.find?_eq_none]
      intro x hx
      simpa using hall x hx
    rw [key, hnone]

/-- C3, at an enumeration with two entries of the process: the first one, with 7 threads, is
the one stored. -/
theorem C3_thread_count_first_match_witness :
    (snapshot hostInstance sampleOk).cpuThreads = 7 :=
  (C3_thread_count_first_match hostInstance sampleOk).2.1
    [{ th32ProcessID := 4, cntThreads := 200 }]
    [{ th32ProcessID := 4242, cntThreads := 9 }, { th32ProcessID := 5000, cntThreads := 1 }]
    { th32ProcessID := 4242, cntThreads := 7 } rfl (by decide) rfl

/-- C4: when the memory query reports `P`, `W` and `U` bytes and the handle-count query
reports `H`, then after `snapshot()` the three memory counters are `P / 1024`, `W / 1024` and
`U / 1024` (rounded down) and `cpuHandles` is `H`, whatever the counters were before; each
stored value `v` brackets its byte count, `1024 * v ≤ bytes < 1024 * (v + 1)`. -/
theorem C4_successful_queries (w : WinProcessInfo) (os : SampleOs) (P W U H : Nat)
    (hmem : os.GetProcessMemoryInfo w.processHandle
      = some { PeakWorkingSetSize := P, WorkingSetSize := W, PrivateUsage := U })
    (hcount : os.GetProcessHandleCount w.processHandle = some H) :
    (snapshot w os).memPeakWorkingSet = P / 1024 ∧
    (snapshot w os).memWorkingSet = W / 1024 ∧
    (snapshot w os).memPrivate = U / 1024 ∧
    (snapshot w os).cpuHandles = H ∧
    (1024 * (snapshot w os).memPeakWorkingSet ≤ P ∧
      P < 1024 * ((snapshot w os).memPeakWorkingSet + 1)) ∧
    (1024 * (snapshot w os).memWorkingSet ≤ W ∧
      W < 1024 * ((snapshot w os).memWorkingSet + 1)) ∧
    (1024 * (snapshot w os).memPrivate ≤ U ∧
      U < 1024 * ((snapshot w os).memPrivate + 1)) := by
  have e1 : (snapshot w os).memPeakWorkingSet = P / 1024 := by
    simp [snapshot, getCurrentThreadCount, getMemoryInfo, hmem, hcount]
  have e2 : (snapshot w os).memWorkingSet = W / 1024 := by
    simp [snapshot, getCurrentThreadCount, getMemoryInfo, hmem, hcount]
  have e3 : (snapshot w os).memPrivate = U / 1024 := by
    simp [snapshot, getCurrentThreadCount, getMemoryInfo, hmem, hcount]
  have e4 : (snapshot w os).cpuHandles = H := by
    simp [snapshot, getCurrentThreadCount, getMemoryInfo, hmem, hcount]
  rw [e1, e2, e3, e4]
  refine ⟨rfl, rfl, rfl, rfl, ⟨?_, ?_⟩, ⟨?_, ?_⟩, ⟨?_, ?_⟩⟩ <;> omega

/-- C4, at a sampling that reports 5000000, 4096000 and 2047 bytes and 117 handles. -/
theorem C4_successful_queries_witness :
    (snapshot hostInstance sampleOk).memPeakWorkingSet = 5000000 / 1024 ∧
    (snapshot hostInstance sampleOk).memWorkingSet = 4096000 / 1024 ∧
    (snapshot hostInstance sampleOk).memPrivate = 2047 / 1024 ∧
    (snapshot hostInstance sampleOk).cpuHandles = 117 :=
  have h := C4_successful_queries hostInstance sampleOk 5000000 4096000 2047 117
    rfl rfl
  ⟨h.1, h.2.1, h.2.2.1, h.2.2.2.1⟩

/-- C5, as stated, fails: after a successful sampling the counters are 4882, 4000, 1 and 117;
a second sampling whose memory query and handle-count query both fail does not leave them at
these values. -/
theorem C5_failed_queries_counterexample :
    sampleQueriesFail.GetProcessMemoryInfo
      (snapshot hostInstance sampleOk).processHandle = none ∧
    sampleQueriesFail.GetProcessHandleCount
      (snapshot hostInstance sampleOk).processHandle = none ∧
    (snapshot (snapshot hostInstance sampleOk) sampleQueriesFail).memPeakWorkingSet
      ≠ (snapshot hostInstance sampleOk).memPeakWorkingSet ∧
    (snapshot (snapshot hostInstance sampleOk) sampleQueriesFail).memWorkingSet
      ≠ (snapshot hostInstance sampleOk).memWorkingSet ∧
    (snapshot (snapshot hostInstance sampleOk) sampleQueriesFail).memPrivate
      ≠ (snapshot hostInstance sampleOk).memPrivate ∧
    (snapshot (snapshot hostInstance sampleOk) sampleQueriesFail).cpuHandles
      ≠ (snapshot hostInstance sampleOk).cpuHandles := by
  decide

/-- C5, amended: a failed memory query sets the three memory counters to 0 and a failed
handle-count query sets `cpuHandles` to 0, whatever their previous values; in both cases the
rest of `snapshot()` still runs: the result of the other query is stored and the thread count
is computed as usual. -/
theorem C5_failed_queries_zero (w : WinProcessInfo) (os : SampleOs) :
    (os.GetProcessMemoryInfo w.processHandle = none →
      (snapshot w os).memPeakWorkingSet = 0 ∧ (snapshot w os).memWorkingSet = 0 ∧
      (snapshot w os).memPrivate = 0) ∧
    (os.GetProcessHandleCount w.processHandle = none → (snapshot w os).cpuHandles = 0) ∧
    (∀ H, os.GetProcessHandleCount w.processHandle = some H → (snapshot w os).cpuHandles = H) ∧
    (∀ m, os.GetProcessMemoryInfo w.processHandle = some m →
      (snapshot w os).memPeakWorkingSet = m.PeakWorkingSetSize / 1024 ∧
      (snapshot w os).memWorkingSet = m.WorkingSetSize / 1024 ∧
      (snapshot w os).memPrivate = m.PrivateUsage / 1024) ∧
    ((snapshot w os).cpuThreads
      = match (os.CreateToolhelp32Snapshot.getD []).find?
          (fun e => e.th32ProcessID == w.processId) with
        | some e => e.cntThreads
        | none => 0) := by
  refine ⟨?_, ?_, ?_, ?_, cpuThreads_eq_find w os⟩
  · intro hmem
    cases hc : os.GetProcessHandleCount w.processHandle <;>
      simp [snapshot, getCurrentThreadCount, getMemoryInfo, hmem, hc]
  · intro hc
    simp [snapshot, getCurrentThreadCount, getMemoryInfo, hc]
  · intro H hc
    simp [snapshot, getCurrentThreadCount, getMemoryInfo, hc]
  · intro m hmem
    cases hc : os.GetProcessHandleCount w.processHandle <;>
      simp [snapshot, getCurrentThreadCount, getMemoryInfo, hmem, hc]

/-- C5, amended, at an instance with non-zero counters and a sampling whose two queries
fail: the four counters become 0 and the thread count is still refreshed. -/
theorem C5_failed_queries_zero_witness :
    (snapshot (snapshot hostInstance sampleOk) sampleQueriesFail).memPeakWorkingSet
      = 0 ∧
    (snapshot (snapshot hostInstance sampleOk) sampleQueriesFail).memWorkingSet
      = 0 ∧
    (snapshot (snapshot hostInstance sampleOk) sampleQueriesFail).memPrivate
      = 0 ∧
    (snapshot (snapshot hostInstance sampleOk) sampleQueriesFail).cpuHandles
      = 0 :=
  have h := C5_failed_queries_zero (snapshot hostInstance sampleOk)
    sampleQueriesFail
  ⟨(h.1 rfl).1, (h.1 rfl).2.1, (h.1 rfl).2.2, h.2.1 rfl⟩

/-- C7, as stated, fails in both directions: in an environment where `GetCurrentProcess`
yields `NULL` the constructor reports no failure and ends with an instance whose
`processHandle` is invalid; and in an environment with a valid handle it ends with
`std::length_error`. -/
theorem C7_null_handle_counterexample :
    validHandle longNameOs.GetCurrentProcess = false ∧
    construct longNameOs = Except.ok longNameInstance ∧
    validHandle longNameInstance.processHandle = false ∧
    validHandle hugeSizeOs.GetCurrentProcess = true ∧
    construct hugeSizeOs = Except.error Exception.length_error :=
  ⟨by decide, rfl, by decide, by decide, rfl⟩

/-- C7, amended: the process handle is never checked. An instance that construction produces
holds exactly the value handle acquisition returned, so its handle is valid exactly when the
system yielded a valid one; how construction ends does not depend on the handle: with any
other handle it ends with the same exception, or with the same instance but for the handle;
and construction produces an instance whenever `resize` accepts the first buffer length and
the four reported name lengths. -/
theorem C7_handle_never_checked (os : ConstructOs) :
    (∀ w, construct os = Except.ok w →
      w.processHandle = os.GetCurrentProcess ∧
      validHandle w.processHandle = validHandle os.GetCurrentProcess) ∧
    (∀ h : HANDLE, construct { os with GetCurrentProcess := h }
      = (construct os).map (fun w => { w with processHandle := h })) ∧
    (MAX_COMPUTERNAME_LENGTH ≤ os.max_size ∧ MAX_COMPUTERNAME_LENGTH ≤ os.allocatable →
      (∀ f, (os.GetComputerNameExA f MAX_COMPUTERNAME_LENGTH).nSize ≤ os.max_size ∧
        (os.GetComputerNameExA f MAX_COMPUTERNAME_LENGTH).nSize ≤ os.allocatable) →
      ∃ w, construct os = Except.ok w) := by
  refine ⟨?_, ?_, construct_accepts os⟩
  · intro w hw
    have hh := (construct_ok os w hw).1.2.2.1
    exact ⟨hh, by rw [hh]⟩
  · intro h
    have hres : ∀ f s, resolveName { os with GetCurrentProcess := h } f s
        = resolveName os f s := fun _ _ => rfl
    unfold construct
    simp only [hres]
    cases resolveName os COMPUTER_NAME_FORMAT.ComputerNameDnsHostname "" with
    | error e => rfl
    | ok n1 =>
      cases resolveName os COMPUTER_NAME_FORMAT.ComputerNameDnsFullyQualified "" with
      | error e => rfl
      | ok n2 =>
        cases resolveName os COMPUTER_NAME_FORMAT.ComputerNamePhysicalDnsFullyQualified "" with
        | error e => rfl
        | ok n3 =>
          cases resolveName os COMPUTER_NAME_FORMAT.ComputerNameDnsDomain "" with
          | error e => rfl
          | ok n4 => rfl

/-- C7, amended, at the host `hostOs`, whose handle is valid and whose name lengths `resize`
accepts. -/
theorem C7_handle_never_checked_witness :
    hostInstance.processHandle = hostOs.GetCurrentProcess ∧
    (∃ w, construct hostOs = Except.ok w) :=
  have h := C7_handle_never_checked hostOs
  ⟨(h.1 hostInstance rfl).1, h.2.2 (by decide) (by intro f; cases f <;> decide)⟩

/-- C8, as stated, fails: in a build in which `__cpp_lib_format` is not defined the record
has twelve keys, `timeStartup` and `timeCurrent` being absent; and for an instance state
whose `timeStartup` is the smallest 64-bit tick count the 64-bit subtraction at the reading
1000 overflows, so that `uptime` is negative although `now ≥ timeStartup`. -/
theorem C8_key_set_counterexample :
    (to_json buildWithoutFormat hostInstance 2000 2500).keys
      = ["processId", "hostname", "fqdn", "domain", "localFqdn", "cpuHandles", "cpuThreads",
         "cpuCores", "memPeakWorkingSet", "memWorkingSet", "memPrivateBytes", "uptime"] ∧
    (to_json buildWithoutFormat hostInstance 2000 2500).value "timeStartup" = none ∧
    (to_json buildWithoutFormat hostInstance 2000 2500).value "timeCurrent" = none ∧
    (to_json buildWithoutFormat hostInstance 2000 2500).keys ≠ allKeys ∧
    earliestStart.timeStartup ≤ 1000 ∧
    earliestStart.uptime 1000 = -9223372036854774808 ∧
    (to_json buildWithFormat earliestStart 1000 1000).value "uptime"
      = some (Json.number_integer (-922337203685477480)) := by
  decide

/-- C8, amended: for every instance state and all clock readings, in a build with
`__cpp_lib_format` the keys of the `to_json` record are exactly the fourteen keys, each once
(in a build without it, the same without `timeStartup` and `timeCurrent`); the eleven
field keys carry the fields `processId`, `nameHostname`, `nameFqdn`, `nameDomainName`,
`nameHostnamePhysical`, `cpuHandles`, `cpuThreads`, `cpuCores`, `memPeakWorkingSet`,
`memWorkingSet` and `memPrivate`; and, when `now - timeStartup` and its product with the
numerator of the conversion factor lie within the 64-bit signed range, `uptime` is
`now - timeStartup` converted to whole microseconds, rounded towards zero, which is `≥ 0`
whenever `now ≥ timeStartup`. -/
theorem C8_to_json_record (c : Chrono) (wpi : WinProcessInfo) (nowCurrent nowUptime : Int) :
    (c.cpp_lib_format = true →
      (to_json c wpi nowCurrent nowUptime).keys = allKeys ∧
      (to_json c wpi nowCurrent nowUptime).value "timeStartup"
        = some (Json.string (c.formatTime wpi.timeStartup ++ "Z")) ∧
      (to_json c wpi nowCurrent nowUptime).value "timeCurrent"
        = some (Json.string (c.formatTime nowCurrent ++ "Z"))) ∧
    (c.cpp_lib_format = false →
      (to_json c wpi nowCurrent nowUptime).keys
        = ["processId", "hostname", "fqdn", "domain", "localFqdn", "cpuHandles", "cpuThreads",
           "cpuCores", "memPeakWorkingSet", "memWorkingSet", "memPrivateBytes", "uptime"]) ∧
    allKeys.Nodup ∧
    ((to_json c wpi nowCurrent nowUptime).value "processId"
        = some (Json.number_unsigned wpi.processId) ∧
      (to_json c wpi nowCurrent nowUptime).value "hostname"
        = some (Json.string wpi.nameHostname) ∧
      (to_json c wpi nowCurrent nowUptime).value "fqdn" = some (Json.string wpi.nameFqdn) ∧
      (to_json c wpi nowCurrent nowUptime).value "domain"
        = some (Json.string wpi.nameDomainName) ∧
      (to_json c wpi nowCurrent nowUptime).value "localFqdn"
        = some (Json.string wpi.nameHostnamePhysical) ∧
      (to_json c wpi nowCurrent nowUptime).value "cpuHandles"
        = some (Json.number_unsigned wpi.cpuHandles) ∧
      (to_json c wpi nowCurrent nowUptime).value "cpuThreads"
        = some (Json.number_unsigned wpi.cpuThreads) ∧
      (to_json c wpi nowCurrent nowUptime).value "cpuCores"
        = some (Json.number_unsigned wpi.cpuCores) ∧
      (to_json c wpi nowCurrent nowUptime).value "memPeakWorkingSet"
        = some (Json.number_unsigned wpi.memPeakWorkingSet) ∧
      (to_json c wpi nowCurrent nowUptime).value "memWorkingSet"
        = some (Json.number_unsigned wpi.memWorkingSet) ∧
      (to_json c wpi nowCurrent nowUptime).value "memPrivateBytes"
        = some (Json.number_unsigned wpi.memPrivate)) ∧
    (to_json c wpi nowCurrent nowUptime).value "uptime"
      = some (Json.number_integer (c.microseconds (wpi.uptime nowUptime))) ∧
    (fitsInt64 (nowUptime - wpi.timeStartup) →
      fitsInt64 ((nowUptime - wpi.timeStartup) * c.cfNum) →
      (to_json c wpi nowCurrent nowUptime).value "uptime"
        = some (Json.number_integer
            (Int.tdiv ((nowUptime - wpi.timeStartup) * c.cfNum) c.cfDen)) ∧
      (wpi.timeStartup ≤ nowUptime →
        0 ≤ Int.tdiv ((nowUptime - wpi.timeStartup) * c.cfNum) c.cfDen) ∧
      (wpi.timeStartup ≤ nowUptime → 0 < c.cfDen →
        Int.tdiv ((nowUptime - wpi.timeStartup) * c.cfNum) c.cfDen * c.cfDen
          ≤ (nowUptime - wpi.timeStartup) * c.cfNum ∧
        (nowUptime - wpi.timeStartup) * c.cfNum
          < (Int.tdiv ((nowUptime - wpi.timeStartup) * c.cfNum) c.cfDen + 1) * c.cfDen)) := by
  refine ⟨?_, ?_, by decide, ?_, value_uptime c wpi nowCurrent nowUptime, ?_⟩
  · intro hf
    simp [to_json, JsonObject.keys, JsonObject.value, List.lookup, allKeys, hf]
  · intro hf
    simp [to_json, JsonObject.keys, hf]
  · simp [to_json, JsonObject.value, List.lookup]
  · intro hd hp
    refine ⟨?_, ?_, ?_⟩
    · rw [value_uptime, microseconds_uptime c wpi nowUptime hd hp]
    · intro h
      exact Int.tdiv_nonneg (Int.mul_nonneg (by omega) (Int.ofNat_nonneg _))
        (Int.ofNat_nonneg _)
    · intro h hden
      have hden0 : (0 : Int) < c.cfDen := by exact_mod_cast hden
      have hnum : 0 ≤ (nowUptime - wpi.timeStartup) * (c.cfNum : Int) :=
        Int.mul_nonneg (by omega) (Int.ofNat_nonneg _)
      refine ⟨?_, Int.lt_tdiv_add_one_mul_self _ hden0⟩
      rw [Int.tdiv_eq_ediv hnum (le_of_lt hden0)]
      exact Int.ediv_mul_le _ (ne_of_gt hden0)

/-- C8, amended, at a fresh instance started at tick 1000 and serialised at ticks 2000 and
2500 in a build with `std::format`: fourteen keys and an uptime of 150 microseconds. -/
theorem C8_to_json_record_witness :
    (to_json buildWithFormat hostInstance 2000 2500).keys = allKeys ∧
    (to_json buildWithFormat hostInstance 2000 2500).value "uptime"
      = some (Json.number_integer 150) ∧
    (0 : Int) ≤ 150 :=
  have h := C8_to_json_record buildWithFormat hostInstance 2000 2500
  have hu := h.2.2.2.2.2 (by decide) (by decide)
  ⟨(h.1 rfl).1, hu.1, hu.2.1 (by decide)⟩

/-- C9, as stated, fails: for an instance state whose `timeStartup` is the smallest 64-bit
tick count, the readings `-1 ≤ 0` give the uptimes `2^63 - 1` and then `-2^63`; the second
is not `0 - timeStartup` and is smaller than the first, also in the serialised records. -/
theorem C9_uptime_overflow_counterexample :
    (-1 : Int) ≤ 0 ∧
    (callUptime earliestStart (-1)).2 = 9223372036854775807 ∧
    (callUptime earliestStart 0).2 = -9223372036854775808 ∧
    (callUptime earliestStart 0).2 ≠ 0 - earliestStart.timeStartup ∧
    ¬ ((callUptime earliestStart (-1)).2 ≤ (callUptime earliestStart 0).2) ∧
    (to_json buildWithFormat earliestStart (-1) (-1)).value "uptime"
      = some (Json.number_integer 922337203685477580) ∧
    (to_json buildWithFormat earliestStart 0 0).value "uptime"
      = some (Json.number_integer (-922337203685477580)) := by
  decide

/-- C9, amended: `uptime()` and serialisation leave the instance as it is; `uptime()` at
clock reading `t` returns `t - timeStartup` when that difference lies within the 64-bit
signed range, so for `t1 ≤ t2` with both differences in range the second uptime is not
smaller than the first; two serialisations of the same instance state have the same keys and
agree on every key other than `timeCurrent` and `uptime` (on `timeStartup` too); and when
`t1 ≤ t2` and both differences and their products with the numerator of the conversion
factor are in range, the second `uptime` value is not smaller than the first. -/
theorem C9_pure_reads (c : Chrono) (wpi : WinProcessInfo) (t1 t2 current1 current2 : Int) :
    ((callUptime wpi t1).1 = wpi ∧
      (fitsInt64 (t1 - wpi.timeStartup) → (callUptime wpi t1).2 = t1 - wpi.timeStartup) ∧
      (t1 ≤ t2 → fitsInt64 (t1 - wpi.timeStartup) → fitsInt64 (t2 - wpi.timeStartup) →
        (callUptime wpi t1).2 ≤ (callUptime (callUptime wpi t1).1 t2).2)) ∧
    ((callToJson c wpi current1 t1).1 = wpi ∧
      (to_json c wpi current1 t1).keys = (to_json c wpi current2 t2).keys ∧
      (∀ key : String, key ≠ "timeCurrent" → key ≠ "uptime" →
        (to_json c wpi current1 t1).value key = (to_json c wpi current2 t2).value key) ∧
      (to_json c wpi current1 t1).value "timeStartup"
        = (to_json c wpi current2 t2).value "timeStartup") ∧
    (t1 ≤ t2 → fitsInt64 (t1 - wpi.timeStartup) → fitsInt64 (t2 - wpi.timeStartup) →
      fitsInt64 ((t1 - wpi.timeStartup) * c.cfNum) →
      fitsInt64 ((t2 - wpi.timeStartup) * c.cfNum) →
      ∃ u1 u2 : Int,
        (to_json c wpi current1 t1).value "uptime" = some (Json.number_integer u1) ∧
        (to_json c wpi current2 t2).value "uptime" = some (Json.number_integer u2) ∧
        u1 ≤ u2) := by
  have hagree : ∀ key : String, key ≠ "timeCurrent" → key ≠ "uptime" →
      (to_json c wpi current1 t1).value key = (to_json c wpi current2 t2).value key := by
    intro key h1 h2
    have b1 : (key == "timeCurrent") = false := by simpa using h1
    have b2 : (key == "uptime") = false := by simpa using h2
    cases hf : c.cpp_lib_format <;>
      simp [to_json, JsonObject.value, List.lookup, hf, b1, b2]
  refine ⟨⟨rfl, ?_, ?_⟩, ⟨rfl, ?_, hagree, hagree _ (by decide) (by decide)⟩, ?_⟩
  · intro hd
    exact wrap64_of_fits _ hd
  · intro h hd1 hd2
    simp only [callUptime, WinProcessInfo.uptime]
    rw [wrap64_of_fits _ hd1, wrap64_of_fits _ hd2]
    omega
  · cases hf : c.cpp_lib_format <;> simp [to_json, JsonObject.keys, hf]
  · intro h hd1 hd2 hp1 hp2
    refine ⟨_, _, value_uptime c wpi current1 t1, value_uptime c wpi current2 t2, ?_⟩
    rw [microseconds_uptime c wpi t1 hd1 hp1, microseconds_uptime c wpi t2 hd2 hp2]
    apply tdiv_mono
    exact Int.mul_le_mul_of_nonneg_right (by omega) (Int.ofNat_nonneg _)

/-- C9, amended, at a fresh instance started at tick 1000, read at ticks 2500 and 2600. -/
theorem C9_pure_reads_witness :
    (callUptime hostInstance 2500).2 = 2500 - hostInstance.timeStartup ∧
    (callUptime hostInstance 2500).2 ≤ (callUptime (callUptime hostInstance 2500).1 2600).2 ∧
    (to_json buildWithFormat hostInstance 2000 2500).value "timeStartup"
      = (to_json buildWithFormat hostInstance 2501 2600).value "timeStartup" ∧
    (∃ u1 u2 : Int,
      (to_json buildWithFormat hostInstance 2000 2500).value "uptime"
        = some (Json.number_integer u1) ∧
      (to_json buildWithFormat hostInstance 2501 2600).value "uptime"
        = some (Json.number_integer u2) ∧
      u1 ≤ u2) :=
  have h := C9_pure_reads buildWithFormat hostInstance 2500 2600 2000 2501
  ⟨h.1.2.1 (by decide), h.1.2.2 (by decide) (by decide) (by decide), h.2.1.2.2.2,
   h.2.2 (by decide) (by decide) (by decide) (by decide) (by decide)⟩

set_option maxRecDepth 100000 in
/-- C10: the text built by the formatter branch without the JSON library, for every instance
state, is `{`, the fourteen members, `}`, but the members from `hostname` to `timeStartup`
are separated by two commas instead of one; shown for every instance, and evaluated at a fresh
instance started at tick 1000 and formatted at ticks 2000 and 2500. -/
theorem C10_format_doubles_commas :
    (∀ (c : Chrono) (wpi : WinProcessInfo) (nowCurrent nowUptime : Int),
      format c wpi nowCurrent nowUptime
        = "\x7b" ++ member "processId" (toString wpi.processId)
          ++ "," ++ member "hostname" (quoted wpi.nameHostname)
          ++ ",," ++ member "domain" (quoted wpi.nameDomainName)
          ++ ",," ++ member "fqdn" (quoted wpi.nameFqdn)
          ++ ",," ++ member "localFqdn" (quoted wpi.nameHostnamePhysical)
          ++ ",," ++ member "cpuHandles" (toString wpi.cpuHandles)
          ++ ",," ++ member "cpuThreads" (toString wpi.cpuThreads)
          ++ ",," ++ member "cpuCores" (toString wpi.cpuCores)
          ++ ",," ++ member "memPeakWorkingSet" (toString wpi.memPeakWorkingSet)
          ++ ",," ++ member "memWorkingSet" (toString wpi.memWorkingSet)
          ++ ",," ++ member "memPrivateBytes" (toString wpi.memPrivate)
          ++ ",," ++ member "timeStartup" (quoted (c.formatTime wpi.timeStartup ++ "Z"))
          ++ "," ++ member "timeCurrent" (quoted (c.formatTime nowCurrent ++ "Z"))
          ++ "," ++ member "uptime" (toString (c.microseconds (wpi.uptime nowUptime)))
          ++ "\x7d") ∧
    format buildWithFormat hostInstance 2000 2500
      = "\x7b\"processId\":4242,\"hostname\":\"web01\",,\"domain\":\"corp\",,\"fqdn\":\"web01.corp\",,\"localFqdn\":\"node7.corp\",,\"cpuHandles\":0,,\"cpuThreads\":0,,\"cpuCores\":8,,\"memPeakWorkingSet\":0,,\"memWorkingSet\":0,,\"memPrivateBytes\":0,,\"timeStartup\":\"1970-01-01T00:00:00.0001000Z\",\"timeCurrent\":\"1970-01-01T00:00:00.0002000Z\",\"uptime\":150\x7d" := by
  refine ⟨?_, by decide⟩
  intro c wpi nowCurrent nowUptime
  apply String.ext
  simp only [format, member, quoted, String.data_append, List.append_assoc]
  rfl

end siddiqsoft
